import Mathlib

/-!
Shallow embedding of the rumatui boundary layer: the event-translation
pipeline (`src/client/event_stream.rs`) and the terminal input/tick
multiplexer (`src/ui_loop.rs`), together with theorems settling the
frozen claims about them.

Conventions of the embedding:
* Rust `String`/id newtypes (`UserId`, `RoomId`, `EventId`) are Lean
  `String`s; timestamps are `Nat`.
* The async channel send is modelled by a `chanOpen : Bool` flag: a send
  on an open channel enqueues the event, a send on a closed channel
  returns an error, which the source turns into a panic.  A handler run
  is a pure function returning a `HandlerOutcome`.
* `Uuid.new_v4()` (random) is a `fresh : String` parameter, and
  `crate::widgets::utils::markdown_to_terminal` (repository code outside
  the embedded files) is a `mdt : String → Option String` parameter.
-/

namespace Rumatui

/-- Membership states of the matrix `m.room.member` state event
(`matrix_sdk::events::room::member::MembershipState`). -/
inductive MembershipState
  | Ban
  | Invite
  | Join
  | Knock
  | Leave
deriving DecidableEq

/-- Classification of a membership-state transition
(`matrix_sdk::events::room::member::MembershipChange`). -/
inductive MembershipChange
  | None
  | Error
  | Joined
  | Left
  | Banned
  | Unbanned
  | Kicked
  | Invited
  | KickedAndBanned
  | InvitationRejected
  | InvitationRevoked
  | ProfileChanged
  | NotImplemented
deriving DecidableEq

/-- The transition table of `membership_change` in
`src/client/event_stream.rs` (lines 336–359), with the previous state —
let-bound to `Leave` in the source function — made a parameter, and the
`member.sender == member.state_key` test passed in as `same_actor`.
The match arms are transcribed in source order. -/
def membership_change_table (prev next : MembershipState) (same_actor : Bool) :
    MembershipChange :=
  match prev, next with
  | .Invite, .Invite | .Leave, .Leave | .Ban, .Ban => .None
  | .Invite, .Join | .Leave, .Join => .Joined
  | .Invite, .Leave =>
    if same_actor then .InvitationRevoked else .InvitationRejected
  | .Invite, .Ban | .Leave, .Ban => .Banned
  | .Join, .Invite | .Ban, .Invite | .Ban, .Join => .Error
  | .Join, .Join => .ProfileChanged
  | .Join, .Leave => if same_actor then .Left else .Kicked
  | .Join, .Ban => .KickedAndBanned
  | .Leave, .Invite => .Invited
  | .Ban, .Leave => .Unbanned
  | .Knock, _ | _, .Knock => .NotImplemented

/-- The membership-transition table exactly as the specification's §4.2
states it, written from the spec's words (not from the source), for
comparison with `membership_change_table`. -/
def resolveSpec (previous next : MembershipState) (same_actor : Bool) :
    MembershipChange :=
  if previous = next ∧ (previous = .Invite ∨ previous = .Leave ∨ previous = .Ban) then
    .None
  else if previous = .Knock ∨ next = .Knock then
    .NotImplemented
  else if (previous = .Invite ∨ previous = .Leave) ∧ next = .Join then
    .Joined
  else if previous = .Invite ∧ next = .Leave then
    if same_actor then .InvitationRevoked else .InvitationRejected
  else if (previous = .Invite ∨ previous = .Leave) ∧ next = .Ban then
    .Banned
  else if (previous = .Join ∧ next = .Invite) ∨
      (previous = .Ban ∧ (next = .Invite ∨ next = .Join)) then
    .Error
  else if previous = .Join ∧ next = .Join then
    .ProfileChanged
  else if previous = .Join ∧ next = .Leave then
    if same_actor then .Left else .Kicked
  else if previous = .Join ∧ next = .Ban then
    .KickedAndBanned
  else if previous = .Leave ∧ next = .Invite then
    .Invited
  else
    .Unbanned

/-- C1: for every triple (previous, next, same_actor) the
membership-transition resolver embedded from the source returns exactly
the classification of the specification's §4.2 table; it is a pure total
Lean function, so totality and absence of any other transition are
inherent in the statement. -/
theorem membership_table_matches_spec :
    ∀ (p n : MembershipState) (s : Bool),
      membership_change_table p n s = resolveSpec p n s := by
  intro p n s
  cases p <;> cases n <;> cases s <;> rfl

/-- A room member as read by the handlers: only the display name is
consulted (`mem.name` in the source). -/
structure Member where
  name : String
deriving DecidableEq

/-- The read-only slice of `matrix_sdk::Room` the handlers consult:
`room_id`, the computed `display_name()`, and the member roster.  The
roster (a `HashMap<UserId, RoomMember>` in the engine) is modelled as an
association list so its iteration order is explicit. -/
structure Room where
  room_id : String
  display_name : String
  members : List (String × Member)
deriving DecidableEq

/-- The room context a notification arrives with
(`matrix_sdk::RoomState`): joined, invited preview, or left. -/
inductive RoomState
  | Joined (room : Room)
  | Invited (room : Room)
  | Left (room : Room)
deriving DecidableEq

/-- Whether the room context is the joined one. -/
def RoomState.isJoined : RoomState → Bool
  | .Joined _ => true
  | _ => false

/-- Content of an `m.room.member` event: the new membership state. -/
structure MemberEventContent where
  membership : MembershipState
deriving DecidableEq

/-- A timeline `m.room.member` event (`MemberEvent`).  The field
`membership_change` carries the result of the engine-computed
`event.membership_change()` call, which the source delegates to the
external sync engine for timeline events. -/
structure MemberEvent where
  sender : String
  state_key : String
  content : MemberEventContent
  membership_change : MembershipChange
deriving DecidableEq

/-- A stripped (invite-preview) `m.room.member` event
(`StrippedRoomMember`): no prior-state information is available. -/
structure StrippedRoomMember where
  sender : String
  state_key : String
  content : MemberEventContent
deriving DecidableEq

/-- Text message content (`TextMessageEventContent`): the plain `body`
and the optional `formatted_body`. -/
structure TextMessageEventContent where
  body : String
  formatted_body : Option String
deriving DecidableEq

/-- Message content: the source only translates the `Text` variant; all
other message kinds fall to the wildcard arm. -/
inductive MessageEventContent
  | Text (content : TextMessageEventContent)
  | Other
deriving DecidableEq

/-- The `unsigned` portion of a message event: the optional transaction
id echoed back for messages this client sent. -/
structure UnsignedData where
  transaction_id : Option String
deriving DecidableEq

/-- A timeline message event (`MessageEvent`). -/
structure MessageEvent where
  content : MessageEventContent
  sender : String
  event_id : String
  origin_server_ts : Nat
  unsigned : UnsignedData
deriving DecidableEq

/-- Content of an `m.fully_read` account-data event. -/
structure FullyReadContent where
  event_id : String
deriving DecidableEq

/-- An `m.fully_read` account-data event (`FullyReadEvent`). -/
structure FullyReadEvent where
  content : FullyReadContent
deriving DecidableEq

/-- Content of an `m.typing` event: the ids of currently typing users. -/
structure TypingEventContent where
  user_ids : List String
deriving DecidableEq

/-- An `m.typing` ephemeral event (`TypingEvent`). -/
structure TypingEvent where
  content : TypingEventContent
deriving DecidableEq

/-- The message record built by `on_room_message`
(`crate::widgets::message::Message`); its fields are exactly those of
the struct literal at the construction site in the source. -/
structure Message where
  name : String
  user : String
  text : String
  event_id : String
  timestamp : Nat
  uuid : String
  read : Bool
  sent_receipt : Bool
deriving DecidableEq

/-- The canonical UI-facing event vocabulary (`StateResult`). -/
inductive StateResult
  | Member (sender receiver : String) (room : Room)
      (membership : MembershipChange) (timeline_event : Bool)
      (member : MembershipState)
  | Message (msg : Rumatui.Message) (room_id : String)
  | Name (display_name room_id : String)
  | FullyRead (event_id room_id : String)
  | Typing (summary : String)
  | Err
deriving DecidableEq

/-- Outcome of running one notification handler: either a normal return
carrying the event it enqueued (`none` when the handler is a no-op), or
an abrupt termination of the task — the source's panic on a failed
channel send or a failed unwrap. -/
inductive HandlerOutcome
  | ok (emitted : Option StateResult)
  | panicked
deriving DecidableEq

/-- The guarded channel send each translating handler performs:
`self.send.lock().await.send(ev).await`, with the source's
`if let Err(e) = … { panic!("{}", e) }` around it.  A send on an open
channel enqueues the event; a send after the receiver is gone returns an
error, which the source turns into a panic. -/
def trySend (chanOpen : Bool) (ev : StateResult) : HandlerOutcome :=
  if chanOpen then .ok (some ev) else .panicked

/-- Model of the external `UserId::try_from(&str)` validity check of the
matrix identifiers crate: a user id is well-formed when it starts with
the sigil `@` and has a nonempty localpart and a nonempty server name
separated by `:`. -/
def userIdValid (s : String) : Bool :=
  let cs := s.data
  cs.headD ' ' == '@' &&
  !((cs.drop 1).takeWhile (fun c => c != ':')).isEmpty &&
  ((cs.drop 1).dropWhile (fun c => c != ':')).length ≥ 2

/-- Model of the external `UserId::localpart()`: the characters between
the leading `@` and the first `:`. -/
def localpart (s : String) : String :=
  String.mk ((s.data.drop 1).takeWhile (fun c => c != ':'))

/-- Hexadecimal digit test used by the uuid model. -/
def isHexDigit (c : Char) : Bool :=
  c.isDigit || ('a' ≤ c && c ≤ 'f') || ('A' ≤ c && c ≤ 'F')

/-- Model of the external `Uuid::parse_str` validity check of the uuid
crate, covering the hyphenated 8-4-4-4-12 form and the simple 32-hex
form (the forms the claims exercise). -/
def uuidValid (s : String) : Bool :=
  let cs := s.data
  (cs.length == 36 &&
    ([8, 13, 18, 23].all (fun i => cs.getD i ' ' == '-')) &&
    ((List.range 36).all (fun i =>
      List.contains [8, 13, 18, 23] i || isHexDigit (cs.getD i ' ')))) ||
  (cs.length == 32 && cs.all isHexDigit)

/-- Model of `Vec::join` on a vector of strings, as used by the typing
handler (`typing.join(", ")`). -/
def joinWith (sep : String) : List String → String
  | [] => ""
  | [s] => s
  | s :: rest => s ++ sep ++ joinWith sep rest

/-- Handler for timeline `m.room.member` notifications
(`EventStream::on_room_member`): in a joined room it parses the target
user id from `state_key` (panicking on the source's `.unwrap()` if the
id is malformed), reads the engine-computed membership change, and sends
a `StateResult::Member` with `timeline_event = true`; in any other room
context it does nothing. -/
def on_room_member (chanOpen : Bool) (room : RoomState) (event : MemberEvent) :
    HandlerOutcome :=
  match room with
  | .Joined room =>
    if userIdValid event.state_key then
      trySend chanOpen
        (.Member event.sender event.state_key room event.membership_change
          true event.content.membership)
    else
      .panicked
  | _ => .ok none

/-- Handler for room-name notifications (`EventStream::on_room_name`):
in a joined room it sends `StateResult::Name` with the room's computed
display name and id (the `NameEvent` payload itself is ignored);
otherwise a no-op. -/
def on_room_name (chanOpen : Bool) (room : RoomState) : HandlerOutcome :=
  match room with
  | .Joined room => trySend chanOpen (.Name room.display_name room.room_id)
  | _ => .ok none

/-- Handler for timeline message notifications
(`EventStream::on_room_message`), parametrised by the delegated markdown
renderer `mdt` (`crate::widgets::utils::markdown_to_terminal`) and the
`fresh` uuid standing for `Uuid::new_v4()`.  In a joined room, for text
content it resolves the sender's display name from the roster (falling
back to the localpart of the sender id), renders the body through `mdt`
when a formatted body is present (falling back to the body on a
rendering failure), parses the transaction id into the dedupe uuid
(falling back to `fresh`), and sends `StateResult::Message`.  Non-text
content and non-joined contexts produce nothing. -/
def on_room_message (mdt : String → Option String) (fresh : String)
    (chanOpen : Bool) (room : RoomState) (event : MessageEvent) :
    HandlerOutcome :=
  match room with
  | .Joined room =>
    let name :=
      match room.members.find? (fun p => p.1 == event.sender) with
      | some p => p.2.name
      | none => localpart event.sender
    match event.content with
    | .Text c =>
      let msg :=
        match c.formatted_body with
        | some _ => (mdt c.body).getD c.body
        | none => c.body
      let txn_id := (event.unsigned.transaction_id.map (fun id => id)).getD ""
      let uuid := if uuidValid txn_id then txn_id else fresh
      trySend chanOpen
        (.Message
          ⟨name, event.sender, msg, event.event_id, event.origin_server_ts,
            uuid, false, false⟩
          room.room_id)
    | .Other => .ok none
  | _ => .ok none

/-- Handler for stripped (invite-preview) `m.room.member` notifications
(`EventStream::on_stripped_state_member`): in a joined room it parses
the target user id from `state_key` (panicking on the source's
`.unwrap()` if malformed), computes the transition with the repository's
`membership_change` helper — which assumes a previous state of `Leave` —
and sends `StateResult::Member` with `timeline_event = false`; otherwise
a no-op. -/
def on_stripped_state_member (chanOpen : Bool) (room : RoomState)
    (event : StrippedRoomMember) : HandlerOutcome :=
  match room with
  | .Joined room =>
    if userIdValid event.state_key then
      trySend chanOpen
        (.Member event.sender event.state_key room
          (membership_change_table .Leave event.content.membership
            (event.sender == event.state_key))
          false event.content.membership)
    else
      .panicked
  | _ => .ok none

/-- Handler for `m.fully_read` account-data notifications
(`EventStream::on_account_data_fully_read`): in a joined room it sends
`StateResult::FullyRead` with the referenced event id and the room id;
otherwise a no-op. -/
def on_account_data_fully_read (chanOpen : Bool) (room : RoomState)
    (event : FullyReadEvent) : HandlerOutcome :=
  match room with
  | .Joined room =>
    trySend chanOpen (.FullyRead event.content.event_id room.room_id)
  | _ => .ok none

/-- The summary string built by the typing handler from the list of
matched display names: `typing.join(", ")` followed by a space, the verb
(`"are"` for more than one name, `"is"` otherwise), and `" typing..."`;
the empty string when no name matched. -/
def typingSummary (typing : List String) : String :=
  if typing.isEmpty then ""
  else
    joinWith ", " typing ++ " " ++
      (if typing.length > 1 then "are" else "is") ++ " typing..."

/-- Handler for `m.typing` notifications
(`EventStream::on_account_data_typing`): in a joined room it filters the
roster to the user ids in the notification's typing set, maps them to
display names in roster iteration order, and sends a single
`StateResult::Typing` with the formatted summary (the empty string when
no one in the roster is typing); otherwise a no-op. -/
def on_account_data_typing (chanOpen : Bool) (room : RoomState)
    (event : TypingEvent) : HandlerOutcome :=
  match room with
  | .Joined room =>
    let typing :=
      (room.members.filter
        (fun p => event.content.user_ids.contains p.1)).map
        (fun p => p.2.name)
    trySend chanOpen (.Typing (typingSummary typing))
  | _ => .ok none

/-- The notification categories of the `EventEmitter` sink interface as
`EventStream` implements it: one constructor per method.  Payloads are
carried only where the handler body reads them; `RoomTopic` is the one
category of the interface with no override in the source file at all, so
it keeps the interface's default empty body. -/
inductive Notification
  | RoomMember (event : MemberEvent)
  | RoomName
  | RoomCanonicalAlias
  | RoomAliases
  | RoomAvatar
  | RoomTopic
  | RoomMessage (event : MessageEvent)
  | RoomMessageFeedback
  | RoomRedaction
  | RoomPowerLevels
  | RoomTombstone
  | StateMember
  | StateName
  | StateCanonicalAlias
  | StateAliases
  | StateAvatar
  | StatePowerLevels
  | StateJoinRules
  | StrippedMember (event : StrippedRoomMember)
  | StrippedName
  | StrippedCanonicalAlias
  | StrippedAliases
  | StrippedAvatar
  | StrippedPowerLevels
  | StrippedJoinRules
  | AccountPresence
  | AccountIgnoredUsers
  | AccountPushRules
  | AccountFullyRead (event : FullyReadEvent)
  | AccountTyping (event : TypingEvent)
  | PresenceEvent
deriving DecidableEq

/-- Dispatch of a notification to its handler, mirroring the
`EventEmitter for EventStream` implementation: the six translating
methods call their handlers, every other method has an empty body. -/
def handle (mdt : String → Option String) (fresh : String)
    (chanOpen : Bool) (room : RoomState) : Notification → HandlerOutcome
  | .RoomMember event => on_room_member chanOpen room event
  | .RoomName => on_room_name chanOpen room
  | .RoomCanonicalAlias => .ok none
  | .RoomAliases => .ok none
  | .RoomAvatar => .ok none
  | .RoomTopic => .ok none
  | .RoomMessage event => on_room_message mdt fresh chanOpen room event
  | .RoomMessageFeedback => .ok none
  | .RoomRedaction => .ok none
  | .RoomPowerLevels => .ok none
  | .RoomTombstone => .ok none
  | .StateMember => .ok none
  | .StateName => .ok none
  | .StateCanonicalAlias => .ok none
  | .StateAliases => .ok none
  | .StateAvatar => .ok none
  | .StatePowerLevels => .ok none
  | .StateJoinRules => .ok none
  | .StrippedMember event => on_stripped_state_member chanOpen room event
  | .StrippedName => .ok none
  | .StrippedCanonicalAlias => .ok none
  | .StrippedAliases => .ok none
  | .StrippedAvatar => .ok none
  | .StrippedPowerLevels => .ok none
  | .StrippedJoinRules => .ok none
  | .AccountPresence => .ok none
  | .AccountIgnoredUsers => .ok none
  | .AccountPushRules => .ok none
  | .AccountFullyRead event => on_account_data_fully_read chanOpen room event
  | .AccountTyping event => on_account_data_typing chanOpen room event
  | .PresenceEvent => .ok none

/-- The recognized-but-untranslated notification categories: everything
except the six translating ones. -/
def untranslated : Notification → Bool
  | .RoomMember _ => false
  | .RoomName => false
  | .RoomMessage _ => false
  | .StrippedMember _ => false
  | .AccountFullyRead _ => false
  | .AccountTyping _ => false
  | _ => true

/-- The subset of the termion `Key` enum the embedding needs. -/
inductive Key
  | Char (c : Char)
  | Ctrl (c : Char)
  | Esc
  | Other
deriving DecidableEq

/-- The subset of the termion `Event` enum the embedding needs: key
events, and an opaque stand-in for mouse and unsupported events. -/
inductive TermEvent
  | Key (k : Key)
  | Mouse
  | Unsupported
deriving DecidableEq

/-- The multiplexer's output vocabulary (`ui_loop::Event<I>`). -/
inductive Event (I : Type)
  | Input (i : I)
  | Tick
deriving DecidableEq

/-- The multiplexer configuration (`ui_loop::Config`); the tick duration
is in abstract time units. -/
structure Config where
  exit_key : Key
  tick_rate : Nat
deriving DecidableEq

/-- The input-producer loop of `UiEventHandle::with_config`, run over
the (already successfully read) terminal events: on `Key(Char('q'))` —
a literal in the source, not `cfg.exit_key` — the thread returns without
sending; otherwise it sends `Event::Input(ev)`, returning if the send
fails (`chanOpen = false`).  The result is the list of events delivered
to the consumer. -/
def inputProducer (cfg : Config) (chanOpen : Bool) :
    List TermEvent → List (Event TermEvent)
  | [] => []
  | ev :: rest =>
    if ev = TermEvent.Key (Key.Char 'q') then []
    else if chanOpen then Event.Input ev :: inputProducer cfg chanOpen rest
    else []

/-- The input producer as the claim describes it, written from the
spec's words: the producer stops exactly when an event equal to the
configured `exit_key` arrives (not forwarding it), and forwards every
other event as `Event::Input`. -/
def inputProducerClaim (cfg : Config) (chanOpen : Bool) :
    List TermEvent → List (Event TermEvent)
  | [] => []
  | ev :: rest =>
    if ev = TermEvent.Key cfg.exit_key then []
    else if chanOpen then Event.Input ev :: inputProducerClaim cfg chanOpen rest
    else []

/-- One action of the tick producer, for ordering arguments: delivering
a `Event::Tick`, or sleeping for a duration. -/
inductive TickAction
  | SendTick
  | Sleep (d : Nat)
deriving DecidableEq

/-- The tick-producer loop of `UiEventHandle::with_config`, driven by
the outcomes of its successive sends: each iteration first sends
`Event::Tick` — returning immediately if the send fails — and then
sleeps for `cfg.tick_rate`.  The argument lists the send outcomes for as
many iterations as are observed; the result is the trace of performed
actions. -/
def tickProducer (cfg : Config) : List Bool → List TickAction
  | [] => []
  | ok :: rest =>
    if ok then
      TickAction.SendTick :: TickAction.Sleep cfg.tick_rate ::
        tickProducer cfg rest
    else []

/-- The tick producer as the claim describes it, written from the spec's
words: each iteration sleeps for the tick interval and only then sends
`Event::Tick`, repeating until a send fails. -/
def tickProducerClaim (cfg : Config) : List Bool → List TickAction
  | [] => []
  | ok :: rest =>
    TickAction.Sleep cfg.tick_rate ::
      (if ok then TickAction.SendTick :: tickProducerClaim cfg rest else [])

/-- The tick producer as the amended claim describes it: each iteration
first sends `Event::Tick` and only then sleeps for the tick interval, so
the first tick is delivered immediately; it repeats until a send fails,
at which point it stops without sleeping again. -/
def tickProducerAmendedSpec (cfg : Config) : List Bool → List TickAction
  | [] => []
  | ok :: rest =>
    if ok then
      TickAction.SendTick :: TickAction.Sleep cfg.tick_rate ::
        tickProducerAmendedSpec cfg rest
    else []

/-- Associativity of string append, proved through the underlying
character lists. -/
theorem str_append_assoc (a b c : String) :
    (a ++ b) ++ c = a ++ (b ++ c) := by
  rcases a with ⟨la⟩
  rcases b with ⟨lb⟩
  rcases c with ⟨lc⟩
  show String.mk ((la ++ lb) ++ lc) = String.mk (la ++ (lb ++ lc))
  rw [List.append_assoc]

/-- The typing summary as the claim's grammar states it, written from
the spec's words: empty list — empty string; one name —
`name is typing...`; several names — comma-joined names followed by
`are typing...`. -/
def typingSummarySpec : List String → String
  | [] => ""
  | [n] => n ++ " is typing..."
  | names => joinWith ", " names ++ " are typing..."

/-- The summary the handler builds coincides with the claim's grammar on
every list of names. -/
theorem typingSummary_eq_spec (names : List String) :
    typingSummary names = typingSummarySpec names := by
  match names with
  | [] => rfl
  | [n] =>
    show (n ++ " ") ++ "is" ++ " typing..." = n ++ " is typing..."
    rw [str_append_assoc, str_append_assoc]
    congr 1
  | a :: b :: rest =>
    have hgt : (a :: b :: rest).length > 1 := by
      simp [List.length_cons]
    have h1 : typingSummary (a :: b :: rest) =
        joinWith ", " (a :: b :: rest) ++ " " ++ "are" ++ " typing..." := by
      unfold typingSummary
      rw [if_neg (by simp), if_pos hgt]
    have h2 : typingSummarySpec (a :: b :: rest) =
        joinWith ", " (a :: b :: rest) ++ " are typing..." := rfl
    rw [h1, h2, str_append_assoc, str_append_assoc]
    congr 1

/-- C5: for every typing notification in a joined room (whatever the
channel/typing set), exactly one `Typing` event is emitted, and its
summary is exactly the claim's grammar applied to the roster filtered to
the notification's typing set: empty string for no match,
`name is typing...` for one, comma-joined names with `are` for more. -/
theorem typing_summary_grammar (r : Room) (e : TypingEvent) :
    on_account_data_typing true (.Joined r) e =
      .ok (some (.Typing (typingSummarySpec
        ((r.members.filter
          (fun p => e.content.user_ids.contains p.1)).map
          (fun p => p.2.name))))) := by
  simp only [on_account_data_typing, trySend, if_true, typingSummary_eq_spec]

/-- C3 counterexample: with a configuration whose `exit_key` is `x`, the
raw event `q` stops the producer (so the claim's run, which would
forward it, disagrees with the code's run), and the configured exit key
`x` itself is forwarded as input instead of stopping the producer. -/
theorem input_exit_key_config_ignored_counterexample :
    inputProducer ⟨Key.Char 'x', 250⟩ true [TermEvent.Key (Key.Char 'q')] ≠
      inputProducerClaim ⟨Key.Char 'x', 250⟩ true
        [TermEvent.Key (Key.Char 'q')] ∧
    inputProducer ⟨Key.Char 'x', 250⟩ true [TermEvent.Key (Key.Char 'x')] =
      [Event.Input (TermEvent.Key (Key.Char 'x'))] := by
  constructor
  · decide
  · decide

/-- C3 amended: the input producer stops (emitting no further
`Event::Input` and not emitting the matching event itself) exactly when
the raw event `Key(Char('q'))` arrives — the quit key is the hardcoded
literal `q`, not the construction-time `exit_key` — and forwards every
other event as `Event::Input`; equivalently, it behaves as the claim's
producer would under a configuration whose exit key is `q`. -/
theorem input_producer_hardcoded_quit_amended (cfg : Config)
    (chanOpen : Bool) (evs : List TermEvent) :
    inputProducer cfg chanOpen evs =
      inputProducerClaim ⟨Key.Char 'q', cfg.tick_rate⟩ chanOpen evs := by
  induction evs with
  | nil => rfl
  | cons ev rest ih =>
    simp only [inputProducer, inputProducerClaim, ih]

/-- C9 counterexample: in the very first iteration the tick producer's
first action is delivering `Event::Tick`, not sleeping, so its trace
differs from the claim's sleep-first trace. -/
theorem tick_order_counterexample :
    tickProducer ⟨Key.Char 'q', 250⟩ [true] ≠
      tickProducerClaim ⟨Key.Char 'q', 250⟩ [true] ∧
    (tickProducer ⟨Key.Char 'q', 250⟩ [true]).head? =
      some TickAction.SendTick := by
  constructor
  · decide
  · decide

/-- C9 amended: in every iteration the tick producer first sends
`Event::Tick` and only then sleeps for the configured tick interval — so
the first tick is delivered immediately, before any interval has
elapsed — repeating until a send fails, at which point it stops without
sleeping again. -/
theorem tick_send_then_sleep_amended (cfg : Config) (oks : List Bool) :
    tickProducer cfg oks = tickProducerAmendedSpec cfg oks := by
  induction oks with
  | nil => rfl
  | cons ok rest ih =>
    simp only [tickProducer, tickProducerAmendedSpec, ih]

/-- Modelled from the spec: `crate::widgets::utils::markdown_to_terminal`,
the markdown-to-terminal renderer the message handler delegates to —
repository code outside the embedded source files ("markdown-to-terminal
conversion … rendering is delegated").  A renderer converts markdown
markup rather than copying it; it is modelled here as stripping the
emphasis marker `*` from the text, so it is not the identity. -/
def markdown_to_terminal (s : String) : Option String :=
  some (String.mk (s.data.filter (fun c => c != '*')))

/-- Reduction of the message handler on a joined room and text content:
it performs exactly one guarded send of the message record built from
the event. -/
theorem on_room_message_text (mdt : String → Option String) (fresh : String)
    (chanOpen : Bool) (r : Room) (e : MessageEvent)
    (c : TextMessageEventContent) (hc : e.content = .Text c) :
    on_room_message mdt fresh chanOpen (.Joined r) e =
      trySend chanOpen
        (.Message
          ⟨(match r.members.find? (fun p => p.1 == e.sender) with
            | some p => p.2.name
            | none => localpart e.sender),
            e.sender,
            (match c.formatted_body with
            | some _ => (mdt c.body).getD c.body
            | none => c.body),
            e.event_id, e.origin_server_ts,
            (if uuidValid ((e.unsigned.transaction_id.map
                (fun id => id)).getD "") then
              ((e.unsigned.transaction_id.map (fun id => id)).getD "")
            else fresh),
            false, false⟩
          r.room_id) := by
  obtain ⟨ct, sender, eid, ts, unsig⟩ := e
  have hc' : ct = MessageEventContent.Text c := hc
  subst hc'
  rfl

/-- C2 counterexample: a text message in a joined room whose body is
`**hi**` and which carries a formatted body is emitted with text `hi` —
the body run through the markdown renderer — not with the plain body
unmodified. -/
theorem message_text_not_verbatim_counterexample :
    on_room_message markdown_to_terminal "f" true
        (.Joined ⟨"!r:x", "Room", []⟩)
        ⟨.Text ⟨"**hi**", some "<b>hi</b>"⟩, "@alice:example.com", "$e1", 5,
          ⟨none⟩⟩ =
      .ok (some (.Message
        ⟨"alice", "@alice:example.com", "hi", "$e1", 5, "f", false, false⟩
        "!r:x")) ∧
    ("hi" : String) ≠ "**hi**" := by
  constructor
  · decide
  · decide

/-- C2 amended: for every text message notification in a joined room,
the emitted record's text equals the plain body when the notification
carries no secondary formatted representation; when it does carry one,
the text is the markdown-to-terminal rendering of the plain body,
falling back to the plain body when rendering fails. -/
theorem message_text_rendering_amended (mdt : String → Option String)
    (fresh : String) (r : Room) (e : MessageEvent)
    (c : TextMessageEventContent) (hc : e.content = .Text c) :
    ∃ m, on_room_message mdt fresh true (.Joined r) e =
        .ok (some (.Message m r.room_id)) ∧
      m.text =
        match c.formatted_body with
        | some _ => (mdt c.body).getD c.body
        | none => c.body := by
  exact ⟨_, on_room_message_text mdt fresh true r e c hc, rfl⟩

/-- C2 amended, witnessed at concrete inputs: a message with no
formatted body is forwarded verbatim, discharging the theorem's
hypotheses at an explicit event. -/
theorem message_text_rendering_amended_witness :
    ∃ m, on_room_message markdown_to_terminal "f" true
          (.Joined ⟨"!r:x", "Room", []⟩)
          ⟨.Text ⟨"plain body", none⟩, "@alice:example.com", "$e2", 7,
            ⟨none⟩⟩ =
        .ok (some (.Message m "!r:x")) ∧
      m.text =
        match (none : Option String) with
        | some _ => (markdown_to_terminal "plain body").getD "plain body"
        | none => "plain body" :=
  message_text_rendering_amended markdown_to_terminal "f"
    ⟨"!r:x", "Room", []⟩
    ⟨.Text ⟨"plain body", none⟩, "@alice:example.com", "$e2", 7, ⟨none⟩⟩
    ⟨"plain body", none⟩ rfl

/-- C6: for every text message notification in a joined room, the
handler returns normally (raising no error) and the emitted record's
dedupe identifier equals the notification's transaction id exactly when
that id is present and parses as a valid uuid; when it is absent or
fails to parse, the record carries the freshly generated identifier
instead. -/
theorem message_dedupe_id_passthrough (mdt : String → Option String)
    (fresh : String) (r : Room) (e : MessageEvent)
    (c : TextMessageEventContent) (hc : e.content = .Text c) :
    ∃ m, on_room_message mdt fresh true (.Joined r) e =
        .ok (some (.Message m r.room_id)) ∧
      m.uuid =
        match e.unsigned.transaction_id with
        | some t => if uuidValid t then t else fresh
        | none => fresh := by
  refine ⟨_, on_room_message_text mdt fresh true r e c hc, ?_⟩
  rcases htx : e.unsigned.transaction_id with _ | t
  · simp only [htx]
    rw [if_neg (by decide)]
  · simp only [htx]
    rfl

/-- C6, witnessed at concrete inputs: the specification's well-formed
transaction id `3fa85f64-5717-4562-b3fc-2c963f66afa6` passes through to
the dedupe identifier while a fresh identifier is available, discharging
the theorem's hypothesis at an explicit event. -/
theorem message_dedupe_id_passthrough_witness :
    ∃ m, on_room_message markdown_to_terminal "fresh-id" true
          (.Joined ⟨"!r:x", "Room", []⟩)
          ⟨.Text ⟨"hello", none⟩, "@alice:example.com", "$e3", 9,
            ⟨some "3fa85f64-5717-4562-b3fc-2c963f66afa6"⟩⟩ =
        .ok (some (.Message m "!r:x")) ∧
      m.uuid =
        match (some "3fa85f64-5717-4562-b3fc-2c963f66afa6" :
            Option String) with
        | some t => if uuidValid t then t else "fresh-id"
        | none => "fresh-id" :=
  message_dedupe_id_passthrough markdown_to_terminal "fresh-id"
    ⟨"!r:x", "Room", []⟩
    ⟨.Text ⟨"hello", none⟩, "@alice:example.com", "$e3", 9,
      ⟨some "3fa85f64-5717-4562-b3fc-2c963f66afa6"⟩⟩
    ⟨"hello", none⟩ rfl

/-- C4: every stripped/invite-preview member notification that results
in an emitted event yields a `Member` event whose transition is the
resolver's value for a previous state of `Leave` (whatever the target
user's actual history, which the handler never consults) and whose
`timeline_event` flag is `false`. -/
theorem stripped_member_leave_previous (chanOpen : Bool) (room : RoomState)
    (e : StrippedRoomMember) (out : StateResult)
    (h : on_stripped_state_member chanOpen room e = .ok (some out)) :
    ∃ r, out = .Member e.sender e.state_key r
      (membership_change_table .Leave e.content.membership
        (e.sender == e.state_key))
      false e.content.membership := by
  cases room with
  | Joined r =>
    refine ⟨r, ?_⟩
    simp only [on_stripped_state_member, trySend] at h
    split at h
    · split at h
      · simp only [HandlerOutcome.ok.injEq, Option.some.injEq] at h
        exact h.symm
      · exact absurd h (by simp)
    · exact absurd h (by simp)
  | Invited r => exact absurd h (by simp [on_stripped_state_member])
  | Left r => exact absurd h (by simp [on_stripped_state_member])

/-- C4, witnessed at concrete inputs: an invite-preview `Join` for
`@bob` sent by `@alice` in a joined room is emitted with the
`Leave → Join` transition and `timeline_event = false`, discharging the
theorem's hypothesis at an explicit event. -/
theorem stripped_member_leave_previous_witness :
    ∃ r, StateResult.Member "@alice:example.com" "@bob:example.com"
        ⟨"!r:x", "Room", []⟩ MembershipChange.Joined false
        MembershipState.Join =
      StateResult.Member "@alice:example.com" "@bob:example.com" r
        (membership_change_table .Leave .Join
          ("@alice:example.com" == "@bob:example.com"))
        false .Join :=
  stripped_member_leave_previous true
    (.Joined ⟨"!r:x", "Room", []⟩)
    ⟨"@alice:example.com", "@bob:example.com", ⟨.Join⟩⟩
    (.Member "@alice:example.com" "@bob:example.com" ⟨"!r:x", "Room", []⟩
      .Joined false .Join)
    (by decide)

/-- C7: for every notification whose room context is not joined, and for
every notification of a recognized-but-untranslated category in any
context, the handler emits no event and raises no error — the call is a
pure no-op. -/
theorem untranslated_or_not_joined_noop (mdt : String → Option String)
    (fresh : String) (chanOpen : Bool) (room : RoomState) (n : Notification)
    (h : room.isJoined = false ∨ untranslated n = true) :
    handle mdt fresh chanOpen room n = .ok none := by
  rcases h with h | h
  · cases room with
    | Joined r => simp [RoomState.isJoined] at h
    | Invited r => cases n <;> rfl
    | Left r => cases n <;> rfl
  · cases n <;> first | rfl | simp [untranslated] at h

/-- C7, witnessed at concrete inputs: a room-name notification in an
invited (not joined) room is a no-op, discharging the theorem's
hypothesis at an explicit context. -/
theorem untranslated_or_not_joined_noop_witness :
    handle markdown_to_terminal "f" true (.Invited ⟨"!r:x", "Room", []⟩)
        .RoomName = .ok none :=
  untranslated_or_not_joined_noop markdown_to_terminal "f" true
    (.Invited ⟨"!r:x", "Room", []⟩) .RoomName (Or.inl rfl)

/-- The member handler aborts for every input that reaches its send once
the channel's receiver is gone. -/
theorem on_room_member_chan_closed (r : Room) (e : MemberEvent) :
    on_room_member false (.Joined r) e = .panicked := by
  simp [on_room_member, trySend]

/-- The stripped-member handler aborts for every input that reaches its
send once the channel's receiver is gone. -/
theorem on_stripped_member_chan_closed (r : Room) (e : StrippedRoomMember) :
    on_stripped_state_member false (.Joined r) e = .panicked := by
  simp [on_stripped_state_member, trySend]

/-- Reduction of the message handler on a joined room and non-text
content: it is a no-op. -/
theorem on_room_message_other (mdt : String → Option String) (fresh : String)
    (chanOpen : Bool) (r : Room) (e : MessageEvent)
    (hc : e.content = .Other) :
    on_room_message mdt fresh chanOpen (.Joined r) e = .ok none := by
  obtain ⟨ct, sender, eid, ts, unsig⟩ := e
  have hc' : ct = MessageEventContent.Other := hc
  subst hc'
  rfl

/-- C8: whenever a handler would translate its notification into an
event (it emits on a healthy channel), the same handler on a channel
whose receiver is gone terminates abruptly instead of returning — no
translated event is ever silently discarded or surfaced as an error
value. -/
theorem send_failure_panics (mdt : String → Option String) (fresh : String)
    (room : RoomState) (n : Notification) (ev : StateResult)
    (h : handle mdt fresh true room n = .ok (some ev)) :
    handle mdt fresh false room n = .panicked := by
  cases n
  case RoomMember e =>
    cases room with
    | Joined r => exact on_room_member_chan_closed r e
    | Invited r => exact absurd h (by simp [handle, on_room_member])
    | Left r => exact absurd h (by simp [handle, on_room_member])
  case RoomName =>
    cases room with
    | Joined r => rfl
    | Invited r => exact absurd h (by simp [handle, on_room_name])
    | Left r => exact absurd h (by simp [handle, on_room_name])
  case RoomMessage e =>
    cases room with
    | Joined r =>
      cases hc : e.content with
      | Text c => exact (on_room_message_text mdt fresh false r e c hc).trans rfl
      | Other =>
        exact absurd ((on_room_message_other mdt fresh true r e hc).symm.trans h)
          (by simp)
    | Invited r => exact absurd h (by simp [handle, on_room_message])
    | Left r => exact absurd h (by simp [handle, on_room_message])
  case StrippedMember e =>
    cases room with
    | Joined r => exact on_stripped_member_chan_closed r e
    | Invited r => exact absurd h (by simp [handle, on_stripped_state_member])
    | Left r => exact absurd h (by simp [handle, on_stripped_state_member])
  case AccountFullyRead e =>
    cases room with
    | Joined r => rfl
    | Invited r => exact absurd h (by simp [handle, on_account_data_fully_read])
    | Left r => exact absurd h (by simp [handle, on_account_data_fully_read])
  case AccountTyping e =>
    cases room with
    | Joined r => rfl
    | Invited r => exact absurd h (by simp [handle, on_account_data_typing])
    | Left r => exact absurd h (by simp [handle, on_account_data_typing])
  all_goals exact absurd h (by simp [handle])

/-- C8, witnessed at concrete inputs: the room-name handler, which emits
on a healthy channel, aborts when the receiver is gone, discharging the
theorem's hypothesis at an explicit notification. -/
theorem send_failure_panics_witness :
    handle markdown_to_terminal "f" false (.Joined ⟨"!r:x", "Room", []⟩)
        .RoomName = .panicked :=
  send_failure_panics markdown_to_terminal "f"
    (.Joined ⟨"!r:x", "Room", []⟩) .RoomName (.Name "Room" "!r:x") (by decide)

/-- C10: a member notification in a joined room whose `state_key` is not
a well-formed user id — here `not-a-user-id` — makes both the timeline
handler and the stripped handler abort at the user-id conversion's
unwrap, rather than no-op or emit an `Err` event: the unwrap is a
reachable abort at the notification-sink interface. -/
theorem member_state_key_unwrap_reachable_abort :
    userIdValid "not-a-user-id" = false ∧
    on_room_member true (.Joined ⟨"!r:x", "Room", []⟩)
        ⟨"@alice:example.com", "not-a-user-id", ⟨.Join⟩, .Joined⟩ =
      .panicked ∧
    on_stripped_state_member true (.Joined ⟨"!r:x", "Room", []⟩)
        ⟨"@alice:example.com", "not-a-user-id", ⟨.Join⟩⟩ = .panicked := by
  exact ⟨by decide, by decide, by decide⟩

end Rumatui
